import Mathlib

/-!
Verification development for the leadgenpro caching and search-orchestration
layer (`lead_generator.py`, `lead_processor.py`).

Shallow embedding conventions:
* SQLite tables become Lean lists of row structures; `datetime` timestamps
  become `Int` seconds (ISO-formatted timestamps compare lexicographically in
  chronological order, so integer comparison is faithful).
* `json.dumps`/`json.loads` round-tripping is modelled by `Payload`: a value
  written by the program is always `Payload.ok v` (well-formed JSON), while an
  externally corrupted row is `Payload.corrupt raw`; `decodePayload` is
  `json.loads`, returning `none` exactly when the parse raises.
* `hashlib.md5` cache keys are modelled by the canonical pre-image itself
  (`SearchKey`, or the `company|website` string for leads); md5 is assumed
  collision-free on the inputs the program feeds it.
* Network collaborators (`requests.get` against the geocoding, nearby-search
  and details endpoints) are oracle parameters; a raised
  `requests` exception is an `Except.error`.
* Python floats are modelled as `ℚ`; no claim depends on IEEE rounding.
* Exceptions are `Except String`; a `try/except` block is a `match` on it.
-/

/-- Models a JSON payload stored in a cache row: `ok v` is a well-formed
serialization of `v` (what `json.dumps` writes), `corrupt raw` is an
externally corrupted blob that `json.loads` rejects. -/
inductive Payload (α : Type) where
  | ok (v : α)
  | corrupt (raw : String)
deriving DecidableEq

/-- `json.loads` on a stored payload: succeeds exactly on well-formed data. -/
def decodePayload {α : Type} : Payload α → Option α
  | .ok v => some v
  | .corrupt _ => none

/-- Python `str.strip()`: drop leading and trailing whitespace.  Defined by
structural recursion on the character list (equivalent to `String.trim`, whose
`Substring` auxiliaries do not reduce definitionally). -/
def pyStrip (s : String) : String :=
  String.mk (((s.data.dropWhile Char.isWhitespace).reverse.dropWhile
    Char.isWhitespace).reverse)

/-- Python `str.lower()` (ASCII case folding, as `String.toLower`). -/
def pyLower (s : String) : String :=
  String.mk (s.data.map Char.toLower)

/-- A lead record as built by `_search_places` (lead_generator.py lines
339-345); `place_id` is `Option` because `lead.get('place_id')` yields `None`
when the key is absent. -/
structure Place where
  place_id : Option String
  company_name : String
  full_address : String
  phone : String
  website : String
deriving DecidableEq

/-- The two shapes of value the program stores in the `search_cache` table:
geocode entries hold a `[lat, lng]` pair, region entries hold a list of lead
dicts. -/
inductive SearchVal where
  | coords (lat lng : ℚ)
  | places (ps : List Place)
deriving DecidableEq

/-- Python truthiness of a cached search value: a `[lat, lng]` list is always
non-empty hence truthy; a lead list is truthy iff non-empty. -/
def truthyVal : SearchVal → Bool
  | .coords _ _ => true
  | .places ps => !ps.isEmpty

/-- The canonical pre-image of `_cache_key` (md5 of the sorted-keys JSON of
the params dict, assumed injective): geocode lookups use
`{"geocode": normalized}`, region lookups use the location/radius/keyword
params (the constant per-instance API key is omitted). -/
inductive SearchKey where
  | geocode (normalized : String)
  | nearby (lat lng radius : ℚ) (keyword : String)
deriving DecidableEq

/-- One row of the `search_cache` table. -/
structure SearchRow where
  key : SearchKey
  payload : Payload SearchVal
  timestamp : Int
deriving DecidableEq

abbrev SearchCache := List SearchRow

/-- Seven days in seconds (the TTL literal `timedelta(days=7)`). -/
def sevenDays : Int := 7 * 86400

/-- Thirty days in seconds (`timedelta(days=30)`). -/
def thirtyDays : Int := 30 * 86400

/-- `LeadGenerator._get_cached_search` (lead_generator.py lines 54-72): select
the row whose key matches and whose timestamp is strictly newer than
`now - 7 days`, then `json.loads` the payload.  The `json.loads` call is NOT
guarded by a `try`, so a corrupt payload raises (`Except.error`); a missing or
expired row yields `Except.ok none`. -/
def getCachedSearchE (c : SearchCache) (now : Int) (k : SearchKey) :
    Except String (Option SearchVal) :=
  match c.find? (fun r => decide (r.key = k ∧ now - sevenDays < r.timestamp)) with
  | none => Except.ok none
  | some r =>
    match decodePayload r.payload with
    | some v => Except.ok (some v)
    | none => Except.error "JSONDecodeError"

/-- `LeadGenerator._save_to_cache` (lines 74-86): `INSERT OR REPLACE` on the
primary key, stamping the current time; the written payload is always
well-formed JSON. -/
def saveToCache (c : SearchCache) (now : Int) (k : SearchKey) (v : SearchVal) :
    SearchCache :=
  { key := k, payload := Payload.ok v, timestamp := now } ::
    c.filter (fun r => decide (r.key ≠ k))

/-- The `result` dict of the place-details endpoint. -/
structure PlaceDetails where
  name : String
  formatted_address : String
  formatted_phone_number : String
  website : String
deriving DecidableEq

/-- One row of the `place_details_cache` table. -/
structure DetailsRow where
  place_id : String
  payload : Payload PlaceDetails
  timestamp : Int
deriving DecidableEq

abbrev DetailsCache := List DetailsRow

/-- `LeadGenerator._get_cached_place_details` (lines 88-105): same pattern as
the search namespace with a 30-day TTL; the `json.loads` is likewise
unguarded, so a corrupt payload raises. -/
def getCachedPlaceDetailsE (c : DetailsCache) (now : Int) (pid : String) :
    Except String (Option PlaceDetails) :=
  match c.find? (fun r => decide (r.place_id = pid ∧ now - thirtyDays < r.timestamp)) with
  | none => Except.ok none
  | some r =>
    match decodePayload r.payload with
    | some v => Except.ok (some v)
    | none => Except.error "JSONDecodeError"

/-! ## GeocodeResolver: `LeadGenerator.geocode_location` (lines 120-176) -/

/-- One response of the external geocoding endpoint for one attempt:
the `status` field of the JSON body, or a transport-level
`requests.exceptions.RequestException`. -/
inductive GeoResp where
  | ok (lat lng : ℚ)
  | zeroResults
  | overQueryLimit
  | requestDenied
  | otherStatus (s : String)
  | transport (msg : String)
deriving DecidableEq

/-- The observable outcome of one `geocode_location` call: the returned
coordinates or the raised `ValueError` message, the search cache after the
call, the list of `time.sleep` durations performed (seconds), and the number
of HTTP requests issued. -/
structure GeoOutcome where
  result : Except String (ℚ × ℚ)
  cacheAfter : SearchCache
  sleeps : List Nat
  netCalls : Nat

/-- `max_retries = 3` (line 138). -/
def maxRetries : Nat := 3

/-- The cache key used by `geocode_location`: params
`{"geocode": location.strip().lower()}` (lines 124-127). -/
def geoKey (location : String) : SearchKey :=
  SearchKey.geocode (pyLower (pyStrip location))

/-- The retry loop of `geocode_location` (lines 139-170): `fuel` is the number
of remaining iterations of `for attempt in range(max_retries)` and `attempt`
the current index.  Each iteration issues one request; `OVER_QUERY_LIMIT`,
`REQUEST_DENIED` and transport errors back off `2 ** attempt` seconds and
retry while `attempt < max_retries - 1`; `ZERO_RESULTS` and unknown statuses
raise immediately; success writes `[lat, lng]` to the cache and returns.  The
`fuel = 0` case is the post-loop raise on line 170 (dead code in practice). -/
def geocodeLoop (net : Nat → GeoResp) (now : Int) (location : String)
    (key : SearchKey) : Nat → Nat → SearchCache → List Nat → Nat → GeoOutcome
  | 0, _, cache, sleeps, calls =>
    { result := Except.error "Failed to geocode after 3 attempts",
      cacheAfter := cache, sleeps := sleeps, netCalls := calls }
  | fuel + 1, attempt, cache, sleeps, calls =>
    match net attempt with
    | .ok lat lng =>
      { result := Except.ok (lat, lng),
        cacheAfter := saveToCache cache now key (SearchVal.coords lat lng),
        sleeps := sleeps, netCalls := calls + 1 }
    | .zeroResults =>
      { result := Except.error ("Location not found: " ++ location),
        cacheAfter := cache, sleeps := sleeps, netCalls := calls + 1 }
    | .overQueryLimit =>
      if attempt < maxRetries - 1 then
        geocodeLoop net now location key fuel (attempt + 1) cache
          (sleeps ++ [2 ^ attempt]) (calls + 1)
      else
        { result := Except.error "API limit reached or request denied: OVER_QUERY_LIMIT",
          cacheAfter := cache, sleeps := sleeps, netCalls := calls + 1 }
    | .requestDenied =>
      if attempt < maxRetries - 1 then
        geocodeLoop net now location key fuel (attempt + 1) cache
          (sleeps ++ [2 ^ attempt]) (calls + 1)
      else
        { result := Except.error "API limit reached or request denied: REQUEST_DENIED",
          cacheAfter := cache, sleeps := sleeps, netCalls := calls + 1 }
    | .otherStatus s =>
      { result := Except.error ("Geocoding error: " ++ s),
        cacheAfter := cache, sleeps := sleeps, netCalls := calls + 1 }
    | .transport m =>
      if attempt < maxRetries - 1 then
        geocodeLoop net now location key fuel (attempt + 1) cache
          (sleeps ++ [2 ^ attempt]) (calls + 1)
      else
        { result := Except.error ("Network error: " ++ m),
          cacheAfter := cache, sleeps := sleeps, netCalls := calls + 1 }

/-- Body of the outer `try` of `geocode_location`: normalize, probe the cache
(`if cached_result:` — Python truthiness), return the cached pair on a truthy
hit, otherwise run the retry loop.  A cached geocode value is always a
two-element `[lat, lng]` list; the `.places` arm is unreachable under the key
discipline and is modelled as the type error such a value would cause. -/
def geocodeInner (net : Nat → GeoResp) (now : Int) (cache : SearchCache)
    (location : String) : GeoOutcome :=
  match getCachedSearchE cache now (geoKey location) with
  | .error e =>
    { result := Except.error e, cacheAfter := cache, sleeps := [], netCalls := 0 }
  | .ok (some v) =>
    if truthyVal v then
      match v with
      | .coords lat lng =>
        { result := Except.ok (lat, lng), cacheAfter := cache,
          sleeps := [], netCalls := 0 }
      | .places _ =>
        { result := Except.error "TypeError", cacheAfter := cache,
          sleeps := [], netCalls := 0 }
    else geocodeLoop net now location (geoKey location) maxRetries 0 cache [] 0
  | .ok none => geocodeLoop net now location (geoKey location) maxRetries 0 cache [] 0

/-- The re-raise wrapper of the outer `except` (line 176). -/
def geoWrap (location e : String) : String :=
  "Could not geocode location: " ++ location ++ " - " ++ e

/-- `LeadGenerator.geocode_location` (lines 120-176): the outer
`except Exception` catches any failure and re-raises it as
`ValueError("Could not geocode location: <location> - <cause>")`. -/
def geocode_location (net : Nat → GeoResp) (now : Int) (cache : SearchCache)
    (location : String) : GeoOutcome :=
  match (geocodeInner net now cache location).result with
  | .ok p =>
    { result := Except.ok p,
      cacheAfter := (geocodeInner net now cache location).cacheAfter,
      sleeps := (geocodeInner net now cache location).sleeps,
      netCalls := (geocodeInner net now cache location).netCalls }
  | .error e =>
    { result := Except.error (geoWrap location e),
      cacheAfter := (geocodeInner net now cache location).cacheAfter,
      sleeps := (geocodeInner net now cache location).sleeps,
      netCalls := (geocodeInner net now cache location).netCalls }

/-! ## RegionTiler: `LeadGenerator.split_region_search` (lines 225-300) -/

/-- The per-tile search parameters built on lines 263-268 (the constant API
key omitted). -/
structure TileParams where
  lat : ℚ
  lng : ℚ
  radius : ℚ
  keyword : String
deriving DecidableEq

/-- The `search_cache` key of one tile request. -/
def tileKey (p : TileParams) : SearchKey :=
  SearchKey.nearby p.lat p.lng p.radius p.keyword

/-- `math.ceil(max_results / (splits * splits))` for positive `splits`. -/
def ceilDiv (a b : Nat) : Nat := (a + b - 1) / b

/-- `results_per_region = max(20, ceil(max_results / splits**2))` (line 233). -/
def resultsPerRegion (max_results splits : Nat) : Nat :=
  max 20 (ceilDiv max_results (splits * splits))

/-- The row-major list of tile parameters generated by the nested loops on
lines 249-260: `degree_radius = radius / 69`, tile `(i, j)` center is offset
from the geocoded center, and the per-tile radius is
`(radius / splits) * 1609.34` meters. -/
def tileList (lat lng radius : ℚ) (splits : Nat) (keyword : String) :
    List TileParams :=
  (List.range splits).flatMap (fun i =>
    (List.range splits).map (fun j =>
      { lat := lat - (radius / 69) / 2 + (i : ℚ) * (radius / 69) / (splits : ℚ),
        lng := lng - (radius / 69) / 2 + (j : ℚ) * (radius / 69) / (splits : ℚ),
        radius := radius / (splits : ℚ) * (160934 / 100 : ℚ),
        keyword := keyword }))

/-- Mutable state threaded through the tile loop: `seen_place_ids`,
`all_leads`, the cache, and the trace of `_search_places` invocations
performed so far (for observing external calls). -/
structure TileState where
  seen : List (Option String)
  acc : List Place
  cache : SearchCache
  calls : List TileParams
deriving DecidableEq

/-- The external nearby-search pager `_search_places` as an oracle: given the
tile params and `results_per_region`, it returns a lead list or raises (e.g.
a `requests` exception bubbling out of its unguarded `requests.get`). -/
abbrev Pager := TileParams → Nat → Except String (List Place)

/-- The cache-miss branch of lines 275-279: invoke `_search_places` and cache
whatever it returns (including an empty list) under the tile key.  The error
carries the call trace including this (attempted) invocation. -/
def pagerFetch (pager : Pager) (now : Int) (rpr : Nat) (p : TileParams)
    (cache : SearchCache) (calls : List TileParams) :
    Except (String × List TileParams) (List Place × SearchCache × List TileParams) :=
  match pager p rpr with
  | .error e => Except.error (e, calls ++ [p])
  | .ok ps =>
    Except.ok (ps, saveToCache cache now (tileKey p) (SearchVal.places ps), calls ++ [p])

/-- The interpretation of a cached search value as a lead list: a `[lat,lng]`
geocode pair in this position would make the merge loop crash iterating
dicts. Unreachable under the key discipline. -/
def placesOfE : SearchVal → Except String (List Place)
  | .places ps => Except.ok ps
  | .coords _ _ => Except.error "TypeError"

/-- Lines 270-279 of `split_region_search`: probe the cache for the tile's
params; `if cached_results:` (Python truthiness — an empty cached list counts
as a miss) reuse the cached list, else call the pager and cache its result. -/
def fetchRegionLeads (pager : Pager) (now : Int) (rpr : Nat) (p : TileParams)
    (cache : SearchCache) (calls : List TileParams) :
    Except (String × List TileParams) (List Place × SearchCache × List TileParams) :=
  match getCachedSearchE cache now (tileKey p) with
  | .error e => Except.error (e, calls)
  | .ok (some v) =>
    if truthyVal v then
      match placesOfE v with
      | .error e => Except.error (e, calls)
      | .ok ps => Except.ok (ps, cache, calls)
    else pagerFetch pager now rpr p cache calls
  | .ok none => pagerFetch pager now rpr p cache calls

/-- The merge loop of lines 282-290: walk the tile's leads, appending each
lead whose `place_id` has not been seen, and report `true` the moment
`len(all_leads) >= max_results` (the function then returns immediately). -/
def mergeLeads (maxr : Nat) :
    List Place → List (Option String) → List Place →
      List Place × List (Option String) × Bool
  | [], seen, acc => (acc, seen, false)
  | lead :: rest, seen, acc =>
    if lead.place_id ∈ seen then mergeLeads maxr rest seen acc
    else
      if maxr ≤ (acc ++ [lead]).length then
        (acc ++ [lead], lead.place_id :: seen, true)
      else mergeLeads maxr rest (lead.place_id :: seen) (acc ++ [lead])

/-- One tile of the search loop: fetch the tile's leads (cache-first), then
merge them into the accumulator; `true` signals the early return of line 290. -/
def tileStep (pager : Pager) (now : Int) (rpr maxr : Nat) (p : TileParams)
    (st : TileState) : Except (String × TileState) (TileState × Bool) :=
  match fetchRegionLeads pager now rpr p st.cache st.calls with
  | .error ec =>
    Except.error (ec.1, { st with calls := ec.2 })
  | .ok rl =>
    Except.ok
      ({ seen := (mergeLeads maxr rl.1 st.seen st.acc).2.1,
         acc := (mergeLeads maxr rl.1 st.seen st.acc).1,
         cache := rl.2.1, calls := rl.2.2 },
       (mergeLeads maxr rl.1 st.seen st.acc).2.2)

/-- The tile loop of lines 249-296: visit tiles in row-major order; on the
early return the function yields `all_leads[:max_results]`, and after the
last tile it likewise yields `all_leads[:max_results]` (line 296). -/
def tileLoop (pager : Pager) (now : Int) (rpr maxr : Nat) :
    List TileParams → TileState → Except (String × TileState) (List Place × TileState)
  | [], st => Except.ok (st.acc.take maxr, st)
  | p :: rest, st =>
    match tileStep pager now rpr maxr p st with
    | .error e => Except.error e
    | .ok (st', true) => Except.ok (st'.acc.take maxr, st')
    | .ok (st', false) => tileLoop pager now rpr maxr rest st'

/-- The observable outcome of one `split_region_search` call: the returned
lead list, the `_search_places` invocations performed, the search cache
afterwards, and the message displayed by the `except` handler of line 298
(`none` when no exception was caught). -/
structure RegionOutcome where
  leads : List Place
  pagerCalls : List TileParams
  cacheAfter : SearchCache
  caughtError : Option String
deriving DecidableEq

/-- `LeadGenerator.split_region_search` (lines 225-300).  The whole body sits
in one `try`; any exception — a geocode failure, a corrupt cache row, a pager
failure at any tile — reaches the single handler on line 298, which reports
the message and returns `[]`.  `splits = 0` is the `ZeroDivisionError` of
line 233. -/
def split_region_search (geoNet : Nat → GeoResp) (pager : Pager)
    (cache : SearchCache) (now : Int) (business_type location : String)
    (radius : ℚ) (max_results splits : Nat) : RegionOutcome :=
  if splits = 0 then
    { leads := [], pagerCalls := [], cacheAfter := cache,
      caughtError := some "ZeroDivisionError" }
  else
    match (geocode_location geoNet now cache location).result with
    | .error e =>
      { leads := [], pagerCalls := [],
        cacheAfter := (geocode_location geoNet now cache location).cacheAfter,
        caughtError := some e }
    | .ok (lat, lng) =>
      match tileLoop pager now (resultsPerRegion max_results splits) max_results
          (tileList lat lng radius splits business_type)
          { seen := [], acc := [],
            cache := (geocode_location geoNet now cache location).cacheAfter,
            calls := [] } with
      | .ok r =>
        { leads := r.1, pagerCalls := r.2.calls, cacheAfter := r.2.cache,
          caughtError := none }
      | .error e =>
        { leads := [], pagerCalls := e.2.calls, cacheAfter := e.2.cache,
          caughtError := some e.1 }

/-! ## LeadDedupProcessor: `LeadProcessor` (lead_processor.py) -/

/-- An inbound lead record (`Dict`); fields read with `.get(..., '')` are
`Option` (`none` models both a missing key and a pandas `NaN`). -/
structure Lead where
  company_name : Option String
  full_address : Option String
  town : Option String
  phone : Option String
  website : Option String
  business_type : Option String
deriving DecidableEq

/-- `LeadProcessor._clean_string` (lines 97-101): `""` for `None`/`NaN`,
otherwise `str(value).strip()`. -/
def cleanString : Option String → String
  | none => ""
  | some s => pyStrip s

/-- The pre-image of `LeadProcessor._lead_cache_key` (lines 42-49):
`f"{company}|{website}"` with both parts cleaned and lowercased (md5 assumed
injective). -/
def leadCacheKey (l : Lead) : String :=
  pyLower (cleanString l.company_name) ++ "|" ++ pyLower (cleanString l.website)

/-- The flat result record built by `process_lead` /
`_create_empty_result`. -/
structure ProcResult where
  company_name : String
  full_address : String
  town : String
  phone : String
  website : String
  business_type : String
  processed : Bool
  owner_name : String
  owner_title : String
  confidence : String
  confidence_reasoning : String
  discovered_emails : String
  potential_emails : String
  key_facts : String
  error : String
deriving DecidableEq

/-- One row of the `processed_leads` table. -/
structure LeadRow where
  lead_id : String
  website : String
  payload : Payload ProcResult
  timestamp : Int
deriving DecidableEq

abbrev LeadCache := List LeadRow

/-- `LeadProcessor._get_cached_lead` (lines 51-73): select by `lead_id = ?`
OR `website = ?` (no TTL filter), then `json.loads` inside a `try` whose
`except` returns `None` — so a corrupt payload behaves as a miss. -/
def getCachedLead (c : LeadCache) (l : Lead) : Option ProcResult :=
  match c.find? (fun r =>
      decide (r.lead_id = leadCacheKey l ∨
        r.website = pyLower (cleanString l.website))) with
  | none => none
  | some r => decodePayload r.payload

/-- `LeadProcessor._save_to_cache` (lines 75-89): upsert keyed by the lead id,
stamping the current time. -/
def saveLeadToCache (c : LeadCache) (now : Int) (l : Lead) (result : ProcResult) :
    LeadCache :=
  { lead_id := leadCacheKey l, website := pyLower (cleanString l.website),
    payload := Payload.ok result, timestamp := now } ::
    c.filter (fun r => decide (r.lead_id ≠ leadCacheKey l))

/-- The data the enrichment collaborators (scraper, analyzer, email finder,
optional email cleaner — all external, lines 118-152) contribute to the
result record; an `Except.error` is any exception one of them raises. -/
structure Enriched where
  owner_name : Option String
  owner_title : Option String
  confidence : Option String
  confidence_reasoning : Option String
  discovered_emails : String
  potential_emails : String
  key_facts : String
deriving DecidableEq

/-- `LeadProcessor._create_empty_result` (lines 182-200). -/
def createEmptyResult (l : Lead) (error : String) : ProcResult :=
  { company_name := cleanString l.company_name,
    full_address := cleanString l.full_address,
    town := cleanString l.town,
    phone := cleanString l.phone,
    website := cleanString l.website,
    business_type := cleanString l.business_type,
    processed := false,
    owner_name := "", owner_title := "", confidence := "none",
    confidence_reasoning := "", discovered_emails := "",
    potential_emails := "", key_facts := "", error := error }

/-- The successful result record of lines 155-171 (`analysis.get('confidence',
'low')` supplies the default). -/
def mkProcessedResult (l : Lead) (website : String) (d : Enriched) : ProcResult :=
  { company_name := cleanString l.company_name,
    full_address := cleanString l.full_address,
    town := cleanString l.town,
    phone := cleanString l.phone,
    website := website,
    business_type := cleanString l.business_type,
    processed := true,
    owner_name := cleanString d.owner_name,
    owner_title := cleanString d.owner_title,
    confidence := pyStrip (d.confidence.getD "low"),
    confidence_reasoning := cleanString d.confidence_reasoning,
    discovered_emails := d.discovered_emails,
    potential_emails := d.potential_emails,
    key_facts := d.key_facts, error := "" }

/-- The observable outcome of one `process_lead` call: the returned record,
the lead cache afterwards, and how many times the enrichment pipeline was
entered (0 or 1). -/
structure ProcOutcome where
  result : ProcResult
  cacheAfter : LeadCache
  enrichCalls : Nat
deriving DecidableEq

/-- `LeadProcessor.process_lead` (lines 103-180): short-circuit on a missing
or `'n/a'` website; on `use_cache`, return a cache hit without touching any
collaborator; otherwise run the enrichment pipeline — its whole body is in a
`try` whose `except` converts any exception into
`_create_empty_result(lead, str(e))` (never re-raised), and a success is
written through to the cache. -/
def process_lead (enrich : String → Except String Enriched) (cache : LeadCache)
    (now : Int) (l : Lead) (use_cache : Bool) : ProcOutcome :=
  if cleanString l.website = "" ∨ pyLower (cleanString l.website) = "n/a" then
    { result := createEmptyResult l "", cacheAfter := cache, enrichCalls := 0 }
  else
    match (if use_cache then getCachedLead cache l else none) with
    | some r => { result := r, cacheAfter := cache, enrichCalls := 0 }
    | none =>
      match enrich (cleanString l.website) with
      | .error e =>
        { result := createEmptyResult l e, cacheAfter := cache, enrichCalls := 1 }
      | .ok d =>
        { result := mkProcessedResult l (cleanString l.website) d,
          cacheAfter :=
            saveLeadToCache cache now l (mkProcessedResult l (cleanString l.website) d),
          enrichCalls := 1 }

/-! ## Helper lemmas -/

/-- A freshly upserted search-cache entry is found and decoded by a read at
the same instant. -/
lemma getCachedSearchE_save (c : SearchCache) (now : Int) (k : SearchKey)
    (v : SearchVal) :
    getCachedSearchE (saveToCache c now k v) now k = Except.ok (some v) := by
  unfold getCachedSearchE saveToCache
  rw [List.find?_cons_of_pos]
  · rfl
  · simp [sevenDays]

/-- If the retry loop returns coordinates, the cache afterwards is exactly the
input cache with the `[lat, lng]` pair upserted under the geocode key. -/
lemma geocodeLoop_ok_cache (net : Nat → GeoResp) (now : Int) (loc : String)
    (key : SearchKey) :
    ∀ (fuel attempt : Nat) (cache : SearchCache) (sleeps : List Nat)
      (calls : Nat) (lat lng : ℚ),
      (geocodeLoop net now loc key fuel attempt cache sleeps calls).result =
        Except.ok (lat, lng) →
      (geocodeLoop net now loc key fuel attempt cache sleeps calls).cacheAfter =
        saveToCache cache now key (SearchVal.coords lat lng) := by
  intro fuel
  induction fuel with
  | zero =>
    intro attempt cache sleeps calls lat lng h
    simp [geocodeLoop] at h
  | succ n ih =>
    intro attempt cache sleeps calls lat lng h
    cases hn : net attempt with
    | ok a b =>
      simp [geocodeLoop, hn] at h ⊢
      obtain ⟨h1, h2⟩ := h
      subst h1; subst h2; rfl
    | zeroResults => simp [geocodeLoop, hn] at h
    | overQueryLimit =>
      by_cases ha : attempt < maxRetries - 1
      · simp only [geocodeLoop, hn, if_pos ha] at h ⊢
        exact ih (attempt + 1) cache (sleeps ++ [2 ^ attempt]) (calls + 1) lat lng h
      · simp [geocodeLoop, hn, if_neg ha] at h
    | requestDenied =>
      by_cases ha : attempt < maxRetries - 1
      · simp only [geocodeLoop, hn, if_pos ha] at h ⊢
        exact ih (attempt + 1) cache (sleeps ++ [2 ^ attempt]) (calls + 1) lat lng h
      · simp [geocodeLoop, hn, if_neg ha] at h
    | otherStatus s => simp [geocodeLoop, hn] at h
    | transport m =>
      by_cases ha : attempt < maxRetries - 1
      · simp only [geocodeLoop, hn, if_pos ha] at h ⊢
        exact ih (attempt + 1) cache (sleeps ++ [2 ^ attempt]) (calls + 1) lat lng h
      · simp [geocodeLoop, hn, if_neg ha] at h

/-- After a successful `geocode_location` call, the returned coordinates sit
in the search cache under the normalized geocode key. -/
lemma geocode_ok_cached (net : Nat → GeoResp) (now : Int) (cache : SearchCache)
    (loc : String) (lat lng : ℚ)
    (h : (geocode_location net now cache loc).result = Except.ok (lat, lng)) :
    getCachedSearchE (geocode_location net now cache loc).cacheAfter now
      (geoKey loc) = Except.ok (some (SearchVal.coords lat lng)) := by
  have hinner : (geocodeInner net now cache loc).result = Except.ok (lat, lng) ∧
      (geocode_location net now cache loc).cacheAfter =
        (geocodeInner net now cache loc).cacheAfter := by
    unfold geocode_location at h ⊢
    cases hr : (geocodeInner net now cache loc).result with
    | ok p =>
      simp [hr] at h ⊢
      exact h ▸ rfl
    | error e => simp [hr] at h
  obtain ⟨hres, hcache⟩ := hinner
  rw [hcache]
  unfold geocodeInner at hres ⊢
  cases hc : getCachedSearchE cache now (geoKey loc) with
  | error e => simp [hc] at hres
  | ok o =>
    cases o with
    | none =>
      simp only [hc] at hres ⊢
      rw [geocodeLoop_ok_cache net now loc (geoKey loc) maxRetries 0 cache [] 0 lat lng hres]
      exact getCachedSearchE_save cache now (geoKey loc) (SearchVal.coords lat lng)
    | some v =>
      cases v with
      | coords a b =>
        simp only [hc, truthyVal, if_pos] at hres ⊢
        simp at hres
        obtain ⟨h1, h2⟩ := hres
        subst h1; subst h2
        rfl
      | places ps =>
        cases hps : ps.isEmpty with
        | true =>
          simp only [hc, truthyVal, hps] at hres ⊢
          simp only [Bool.not_true, Bool.false_eq_true, if_false] at hres ⊢
          rw [geocodeLoop_ok_cache net now loc (geoKey loc) maxRetries 0 cache [] 0 lat lng hres]
          exact getCachedSearchE_save cache now (geoKey loc) (SearchVal.coords lat lng)
        | false =>
          simp only [hc, truthyVal, hps] at hres
          simp at hres

/-! ## Claim theorems -/

/-- Claim C7: a search-namespace cache entry written at time `T` is returned
as a hit by `_get_cached_search` when read at `T + 6d23h` (within the 7-day
TTL) and as a miss when read at `T + 7d1h` (past it). -/
theorem search_cache_ttl_boundary (k : SearchKey) (v : SearchVal) (t : Int) :
    getCachedSearchE [{ key := k, payload := Payload.ok v, timestamp := t }]
        (t + (6 * 86400 + 23 * 3600)) k = Except.ok (some v) ∧
    getCachedSearchE [{ key := k, payload := Payload.ok v, timestamp := t }]
        (t + (7 * 86400 + 3600)) k = Except.ok none := by
  constructor
  · unfold getCachedSearchE
    rw [List.find?_cons_of_pos]
    · rfl
    · simp only [decide_eq_true_eq, sevenDays]
      exact ⟨by trivial, by omega⟩
  · unfold getCachedSearchE
    rw [List.find?_cons_of_neg]
    · rfl
    · simp only [decide_eq_true_eq, sevenDays, not_and]
      intro _
      omega

/-- Claim C2, counterexample: in the search and place-details namespaces a
corrupt payload does NOT behave like a missing entry — the unguarded
`json.loads` raises, while a missing entry returns `None`. -/
theorem cache_corruption_cex :
    getCachedSearchE
        [{ key := SearchKey.geocode "boston", payload := Payload.corrupt "not json",
           timestamp := 0 }] 0 (SearchKey.geocode "boston") =
      Except.error "JSONDecodeError" ∧
    getCachedSearchE [] 0 (SearchKey.geocode "boston") = Except.ok none ∧
    getCachedPlaceDetailsE
        [{ place_id := "pid1", payload := Payload.corrupt "not json",
           timestamp := 0 }] 0 "pid1" = Except.error "JSONDecodeError" ∧
    getCachedPlaceDetailsE [] 0 "pid1" = Except.ok none := by
  exact ⟨rfl, rfl, rfl, rfl⟩

/-- Claim C2, amended: only the processed-leads namespace treats an
undeserializable payload as a missing entry — `_get_cached_lead` wraps its
`json.loads` in a `try` returning `None`, so any cache whose rows all fail to
deserialize behaves exactly like an empty cache on `get`. -/
theorem corrupt_lead_entry_is_miss (c : LeadCache) (l : Lead)
    (h : ∀ r ∈ c, decodePayload r.payload = (none : Option ProcResult)) :
    getCachedLead c l = none := by
  unfold getCachedLead
  cases hf : c.find? (fun r =>
      decide (r.lead_id = leadCacheKey l ∨
        r.website = pyLower (cleanString l.website))) with
  | none => rfl
  | some r => exact h r (List.mem_of_find?_eq_some hf)

/-- Witness for `corrupt_lead_entry_is_miss` at a concrete corrupt cache. -/
theorem corrupt_lead_entry_is_miss_witness :
    getCachedLead
      [{ lead_id := "acme|acme.com", website := "acme.com",
         payload := Payload.corrupt "garbage", timestamp := 0 }]
      { company_name := some "Acme", full_address := none, town := none,
        phone := none, website := some "acme.com", business_type := none } =
      none := by
  apply corrupt_lead_entry_is_miss
  intro r hr
  simp only [List.mem_singleton] at hr
  subst hr
  rfl

/-- Claim C10: a tile request whose cached value is the empty list is treated
as a miss by lines 270-279 (`if cached_results:` is false on `[]`), so the
external pager `_search_places` is re-invoked and its result re-cached. -/
theorem empty_cached_tile_refetch (pager : Pager) (now : Int) (rpr : Nat)
    (p : TileParams) (cache : SearchCache) (calls : List TileParams)
    (ps : List Place)
    (hcache : getCachedSearchE cache now (tileKey p) =
      Except.ok (some (SearchVal.places [])))
    (hp : pager p rpr = Except.ok ps) :
    fetchRegionLeads pager now rpr p cache calls =
      Except.ok (ps, saveToCache cache now (tileKey p) (SearchVal.places ps),
        calls ++ [p]) := by
  unfold fetchRegionLeads
  rw [hcache]
  simp only [truthyVal, List.isEmpty_nil, Bool.not_true, Bool.false_eq_true, if_false]
  unfold pagerFetch
  rw [hp]

/-- Witness for `empty_cached_tile_refetch` at a concrete cache holding a
fresh empty tile result. -/
theorem empty_cached_tile_refetch_witness :
    fetchRegionLeads (fun _ _ => Except.ok []) 0 20
        { lat := 0, lng := 0, radius := 5, keyword := "cafe" }
        [{ key := tileKey { lat := 0, lng := 0, radius := 5, keyword := "cafe" },
           payload := Payload.ok (SearchVal.places []), timestamp := 0 }] [] =
      Except.ok ([],
        saveToCache
          [{ key := tileKey { lat := 0, lng := 0, radius := 5, keyword := "cafe" },
             payload := Payload.ok (SearchVal.places []), timestamp := 0 }] 0
          (tileKey { lat := 0, lng := 0, radius := 5, keyword := "cafe" })
          (SearchVal.places []),
        [{ lat := 0, lng := 0, radius := 5, keyword := "cafe" }]) := by
  apply empty_cached_tile_refetch
  · rfl
  · rfl

/-- Claim C9: an exception raised by any enrichment collaborator inside
`process_lead` is caught and converted into `_create_empty_result(lead, str(e))`
— a record with `processed = False` and the error message attached — and the
call returns normally (the model is a total function; nothing propagates). -/
theorem process_lead_error_contained (enrich : String → Except String Enriched)
    (cache : LeadCache) (now : Int) (l : Lead) (use_cache : Bool) (e : String)
    (hw : cleanString l.website ≠ "")
    (hna : pyLower (cleanString l.website) ≠ "n/a")
    (hmiss : use_cache = true → getCachedLead cache l = none)
    (he : enrich (cleanString l.website) = Except.error e) :
    process_lead enrich cache now l use_cache =
      { result := createEmptyResult l e, cacheAfter := cache, enrichCalls := 1 } ∧
    (createEmptyResult l e).processed = false ∧
    (createEmptyResult l e).error = e := by
  refine ⟨?_, rfl, rfl⟩
  unfold process_lead
  rw [if_neg (by simp [hw, hna])]
  cases use_cache with
  | false =>
    rw [if_neg Bool.false_ne_true, he]
  | true =>
    rw [if_pos rfl, hmiss rfl, he]

/-- Witness for `process_lead_error_contained` with a concrete failing
scraper. -/
theorem process_lead_error_contained_witness :
    process_lead (fun _ => Except.error "scrape failed") [] 0
        { company_name := some "Acme", full_address := none, town := none,
          phone := none, website := some "acme.com", business_type := none }
        true =
      { result := createEmptyResult
          { company_name := some "Acme", full_address := none, town := none,
            phone := none, website := some "acme.com", business_type := none }
          "scrape failed",
        cacheAfter := [], enrichCalls := 1 } ∧
    (createEmptyResult
        { company_name := some "Acme", full_address := none, town := none,
          phone := none, website := some "acme.com", business_type := none }
        "scrape failed").processed = false ∧
    (createEmptyResult
        { company_name := some "Acme", full_address := none, town := none,
          phone := none, website := some "acme.com", business_type := none }
        "scrape failed").error = "scrape failed" :=
  process_lead_error_contained (fun _ => Except.error "scrape failed") [] 0
    { company_name := some "Acme", full_address := none, town := none,
      phone := none, website := some "acme.com", business_type := none }
    true "scrape failed" (by decide) (by decide) (fun _ => rfl) rfl

/-- Claim C5: if the cache misses and the geocoding endpoint answers
`OVER_QUERY_LIMIT`/`REQUEST_DENIED` on every attempt, `geocode_location`
issues exactly 3 requests, sleeps `2**0 = 1` and `2**1 = 2` seconds between
attempts (total backoff ≥ 3 units), and then raises the limit/denied error. -/
theorem geocode_backoff_bound (net : Nat → GeoResp) (cache : SearchCache)
    (now : Int) (loc : String)
    (hnet : ∀ a, net a = GeoResp.overQueryLimit ∨ net a = GeoResp.requestDenied)
    (hmiss : getCachedSearchE cache now (geoKey loc) = Except.ok none) :
    (∃ e, (geocode_location net now cache loc).result = Except.error e) ∧
    (geocode_location net now cache loc).netCalls = 3 ∧
    (geocode_location net now cache loc).sleeps = [1, 2] ∧
    3 ≤ (geocode_location net now cache loc).sleeps.sum := by
  have h0 := hnet 0
  have h1 := hnet 1
  have h2 := hnet 2
  unfold geocode_location geocodeInner
  rw [hmiss]
  rcases h0 with h0 | h0 <;> rcases h1 with h1 | h1 <;> rcases h2 with h2 | h2 <;>
    simp [geocodeLoop, maxRetries, h0, h1, h2]

/-- Witness for `geocode_backoff_bound` with an endpoint that is always over
quota and an empty cache. -/
theorem geocode_backoff_bound_witness :
    (∃ e, (geocode_location (fun _ => GeoResp.overQueryLimit) 0 [] "boston").result =
      Except.error e) ∧
    (geocode_location (fun _ => GeoResp.overQueryLimit) 0 [] "boston").netCalls = 3 ∧
    (geocode_location (fun _ => GeoResp.overQueryLimit) 0 [] "boston").sleeps = [1, 2] ∧
    3 ≤ (geocode_location (fun _ => GeoResp.overQueryLimit) 0 [] "boston").sleeps.sum :=
  geocode_backoff_bound (fun _ => GeoResp.overQueryLimit) [] 0 "boston"
    (fun _ => Or.inl rfl) rfl

/-- A `geocode_location` call whose cache holds fresh coordinates under the
normalized key returns them with no network traffic, no sleeps, and an
unchanged cache. -/
lemma geocode_location_cache_hit (net : Nat → GeoResp) (now : Int)
    (c : SearchCache) (loc : String) (lat lng : ℚ)
    (h : getCachedSearchE c now (geoKey loc) =
      Except.ok (some (SearchVal.coords lat lng))) :
    geocode_location net now c loc =
      { result := Except.ok (lat, lng), cacheAfter := c, sleeps := [],
        netCalls := 0 } := by
  unfold geocode_location geocodeInner
  rw [h]
  rfl

/-- Claim C4: if a first `geocode_location` call returns coordinates, then a
second call on any location string equal up to leading/trailing whitespace
and case — against the cache the first call left behind — is answered from
the cache with the same coordinates, performs no network request and no
backoff sleep, and leaves the cache unchanged. -/
theorem geocode_idempotent_cached (net net2 : Nat → GeoResp)
    (cache : SearchCache) (now : Int) (loc1 loc2 : String) (lat lng : ℚ)
    (hnorm : pyLower (pyStrip loc1) = pyLower (pyStrip loc2))
    (h1 : (geocode_location net now cache loc1).result = Except.ok (lat, lng)) :
    (geocode_location net2 now (geocode_location net now cache loc1).cacheAfter
        loc2).result = Except.ok (lat, lng) ∧
    (geocode_location net2 now (geocode_location net now cache loc1).cacheAfter
        loc2).cacheAfter = (geocode_location net now cache loc1).cacheAfter ∧
    (geocode_location net2 now (geocode_location net now cache loc1).cacheAfter
        loc2).netCalls = 0 ∧
    (geocode_location net2 now (geocode_location net now cache loc1).cacheAfter
        loc2).sleeps = [] := by
  have hkey : geoKey loc2 = geoKey loc1 := by
    unfold geoKey
    rw [hnorm]
  have hc := geocode_ok_cached net now cache loc1 lat lng h1
  have h2 := geocode_location_cache_hit net2 now
    ((geocode_location net now cache loc1).cacheAfter) loc2 lat lng
    (by rw [hkey]; exact hc)
  rw [h2]
  exact ⟨rfl, rfl, rfl, rfl⟩

/-- Witness for `geocode_idempotent_cached`: the second call differs from the
first only by whitespace and case. -/
theorem geocode_idempotent_cached_witness :
    (geocode_location (fun _ => GeoResp.transport "down") 0
        (geocode_location (fun _ => GeoResp.ok 42 7) 0 [] "  Boston, MA ").cacheAfter
        "boston, ma").result = Except.ok ((42 : ℚ), (7 : ℚ)) ∧
    (geocode_location (fun _ => GeoResp.transport "down") 0
        (geocode_location (fun _ => GeoResp.ok 42 7) 0 [] "  Boston, MA ").cacheAfter
        "boston, ma").cacheAfter =
      (geocode_location (fun _ => GeoResp.ok 42 7) 0 [] "  Boston, MA ").cacheAfter ∧
    (geocode_location (fun _ => GeoResp.transport "down") 0
        (geocode_location (fun _ => GeoResp.ok 42 7) 0 [] "  Boston, MA ").cacheAfter
        "boston, ma").netCalls = 0 ∧
    (geocode_location (fun _ => GeoResp.transport "down") 0
        (geocode_location (fun _ => GeoResp.ok 42 7) 0 [] "  Boston, MA ").cacheAfter
        "boston, ma").sleeps = [] :=
  geocode_idempotent_cached (fun _ => GeoResp.ok 42 7)
    (fun _ => GeoResp.transport "down") [] 0 "  Boston, MA " "boston, ma" 42 7
    rfl rfl

/-- The merge loop preserves: the accumulator has pairwise-distinct
`place_id`s, and every accumulated `place_id` is registered in `seen`. -/
lemma mergeLeads_inv (maxr : Nat) :
    ∀ (leads : List Place) (seen : List (Option String)) (acc : List Place),
      (acc.map Place.place_id).Nodup →
      (∀ x ∈ acc.map Place.place_id, x ∈ seen) →
      ((mergeLeads maxr leads seen acc).1.map Place.place_id).Nodup ∧
      (∀ x ∈ (mergeLeads maxr leads seen acc).1.map Place.place_id,
        x ∈ (mergeLeads maxr leads seen acc).2.1) := by
  intro leads
  induction leads with
  | nil =>
    intro seen acc hnd hsub
    simp only [mergeLeads]
    exact ⟨hnd, hsub⟩
  | cons lead rest ih =>
    intro seen acc hnd hsub
    by_cases hmem : lead.place_id ∈ seen
    · simp only [mergeLeads, if_pos hmem]
      exact ih seen acc hnd hsub
    · have hnotin : lead.place_id ∉ acc.map Place.place_id :=
        fun hx => hmem (hsub _ hx)
      have hnd' : ((acc ++ [lead]).map Place.place_id).Nodup := by
        simp only [List.map_append, List.map_cons, List.map_nil]
        simp [List.nodup_append, hnd, hnotin]
      have hsub' : ∀ x ∈ (acc ++ [lead]).map Place.place_id,
          x ∈ lead.place_id :: seen := by
        intro x hx
        simp only [List.map_append, List.map_cons, List.map_nil,
          List.mem_append, List.mem_singleton] at hx
        rcases hx with hx | hx
        · exact List.mem_cons_of_mem _ (hsub x hx)
        · simp [hx]
      simp only [mergeLeads, if_neg hmem]
      by_cases hb : maxr ≤ (acc ++ [lead]).length
      · simp only [if_pos hb]
        exact ⟨hnd', hsub'⟩
      · simp only [if_neg hb]
        exact ih (lead.place_id :: seen) (acc ++ [lead]) hnd' hsub'

/-- `tileStep` preserves the accumulator invariant. -/
lemma tileStep_ok_inv (pager : Pager) (now : Int) (rpr maxr : Nat)
    (p : TileParams) (st st' : TileState) (b : Bool)
    (hnd : (st.acc.map Place.place_id).Nodup)
    (hsub : ∀ x ∈ st.acc.map Place.place_id, x ∈ st.seen)
    (h : tileStep pager now rpr maxr p st = Except.ok (st', b)) :
    (st'.acc.map Place.place_id).Nodup ∧
    (∀ x ∈ st'.acc.map Place.place_id, x ∈ st'.seen) := by
  unfold tileStep at h
  cases hf : fetchRegionLeads pager now rpr p st.cache st.calls with
  | error ec => rw [hf] at h; exact absurd h (by simp)
  | ok rl =>
    rw [hf] at h
    simp only [Except.ok.injEq, Prod.mk.injEq] at h
    obtain ⟨hst, _⟩ := h
    have := mergeLeads_inv maxr rl.1 st.seen st.acc hnd hsub
    rw [← hst]
    exact this

/-- Any `Except.ok` outcome of the tile loop is a `take max_results` of a
duplicate-free accumulator: its length is bounded and its `place_id`s are
pairwise distinct. -/
lemma tileLoop_ok_bound (pager : Pager) (now : Int) (rpr maxr : Nat) :
    ∀ (tiles : List TileParams) (st : TileState),
      (st.acc.map Place.place_id).Nodup →
      (∀ x ∈ st.acc.map Place.place_id, x ∈ st.seen) →
      ∀ leads st', tileLoop pager now rpr maxr tiles st = Except.ok (leads, st') →
        leads.length ≤ maxr ∧ (leads.map Place.place_id).Nodup := by
  intro tiles
  induction tiles with
  | nil =>
    intro st hnd hsub leads st' h
    simp only [tileLoop, Except.ok.injEq, Prod.mk.injEq] at h
    obtain ⟨hl, _⟩ := h
    subst hl
    constructor
    · simp [List.length_take]
    · rw [List.map_take]
      exact hnd.sublist (List.take_sublist _ _)
  | cons p rest ih =>
    intro st hnd hsub leads st' h
    cases hs : tileStep pager now rpr maxr p st with
    | error e =>
      simp only [tileLoop, hs] at h
      exact absurd h (by simp)
    | ok r =>
      obtain ⟨st1, b⟩ := r
      have hinv := tileStep_ok_inv pager now rpr maxr p st st1 b hnd hsub hs
      cases b with
      | true =>
        simp only [tileLoop, hs, Except.ok.injEq, Prod.mk.injEq] at h
        obtain ⟨hl, _⟩ := h
        subst hl
        constructor
        · simp [List.length_take]
        · rw [List.map_take]
          exact hinv.1.sublist (List.take_sublist _ _)
      | false =>
        simp only [tileLoop, hs] at h
        exact ih st1 hinv.1 hinv.2 leads st' h

/-- Claim C6: `split_region_search` never returns more than `max_results`
leads nor two leads with the same `place_id`, and the merge loop exits the
moment the accumulator reaches `max_results`: a tile step that reports the
budget reached makes the loop return immediately, independent of all
remaining tiles. -/
theorem region_search_budget_dedup :
    (∀ (geoNet : Nat → GeoResp) (pager : Pager) (cache : SearchCache)
        (now : Int) (business_type location : String) (radius : ℚ)
        (max_results splits : Nat),
      (split_region_search geoNet pager cache now business_type location
          radius max_results splits).leads.length ≤ max_results ∧
      ((split_region_search geoNet pager cache now business_type location
          radius max_results splits).leads.map Place.place_id).Nodup) ∧
    (∀ (pager : Pager) (now : Int) (rpr maxr : Nat) (p : TileParams)
        (st st' : TileState) (rest : List TileParams),
      tileStep pager now rpr maxr p st = Except.ok (st', true) →
      tileLoop pager now rpr maxr (p :: rest) st =
        Except.ok (st'.acc.take maxr, st')) := by
  constructor
  · intro geoNet pager cache now bt loc radius maxr splits
    unfold split_region_search
    by_cases hs : splits = 0
    · simp [hs]
    · rw [if_neg hs]
      cases hg : (geocode_location geoNet now cache loc).result with
      | error e => simp
      | ok q =>
        obtain ⟨lat, lng⟩ := q
        cases ht : tileLoop pager now (resultsPerRegion maxr splits) maxr
            (tileList lat lng radius splits bt)
            { seen := [], acc := [],
              cache := (geocode_location geoNet now cache loc).cacheAfter,
              calls := [] } with
        | error e => simp [ht]
        | ok r =>
          simp only [ht]
          exact tileLoop_ok_bound pager now (resultsPerRegion maxr splits) maxr
            (tileList lat lng radius splits bt)
            { seen := [], acc := [],
              cache := (geocode_location geoNet now cache loc).cacheAfter,
              calls := [] } (by simp) (by simp) r.1 r.2 (by rw [ht])
  · intro pager now rpr maxr p st st' rest h
    simp only [tileLoop, h]

/-- A sample lead used by concrete region-search scenarios. -/
def placeA : Place :=
  { place_id := some "A", company_name := "A Co", full_address := "",
    phone := "", website := "" }

/-- A sample tile used by the budget witness. -/
def tileZero : TileParams := { lat := 0, lng := 0, radius := 0, keyword := "k" }

/-- The tile-loop state after one successful tile that fills a budget of 1. -/
def stA : TileState :=
  { seen := [some "A"], acc := [placeA],
    cache := [{ key := tileKey tileZero,
                payload := Payload.ok (SearchVal.places [placeA]),
                timestamp := 0 }],
    calls := [tileZero] }

/-- Witness for `region_search_budget_dedup`: with budget 1 the first tile
fills the accumulator and the loop returns without touching the second. -/
theorem region_search_budget_dedup_witness :
    tileLoop (fun _ _ => Except.ok [placeA]) 0 20 1 [tileZero, tileZero]
        { seen := [], acc := [], cache := [], calls := [] } =
      Except.ok (stA.acc.take 1, stA) :=
  region_search_budget_dedup.2 (fun _ _ => Except.ok [placeA]) 0 20 1 tileZero
    { seen := [], acc := [], cache := [], calls := [] } stA [tileZero] rfl

/-- A geocoding oracle that always resolves to the origin. -/
def geoNetOk : Nat → GeoResp := fun _ => GeoResp.ok 0 0

/-- A pager oracle that returns the single lead `placeA` for every tile. -/
def pagerOkA : Pager := fun _ _ => Except.ok [placeA]

/-- Tile `(0, 0)` of a 138-mile search at the origin with `splits = 2`:
`degree_radius = 138/69 = 2`, so centers are offset by `-1` or `0`, and the
per-tile radius is `(138/2) * 1609.34 = 111044.46` meters. -/
def tA : TileParams :=
  { lat := -1, lng := -1, radius := 11104446 / 100, keyword := "coffee" }

/-- Tile `(0, 1)` of the same search. -/
def tB : TileParams :=
  { lat := -1, lng := 0, radius := 11104446 / 100, keyword := "coffee" }

/-- Tile `(1, 0)` of the same search. -/
def tC : TileParams :=
  { lat := 0, lng := -1, radius := 11104446 / 100, keyword := "coffee" }

/-- Tile `(1, 1)` of the same search. -/
def tD : TileParams :=
  { lat := 0, lng := 0, radius := 11104446 / 100, keyword := "coffee" }

/-- The geocode cache row written for "boston" resolving to the origin. -/
def geoRowB : SearchRow :=
  { key := geoKey "boston", payload := Payload.ok (SearchVal.coords 0 0),
    timestamp := 0 }

/-- A fresh but corrupt cache row under the key of tile `tB`. -/
def corruptRowB : SearchRow :=
  { key := tileKey tB, payload := Payload.corrupt "garbage", timestamp := 0 }

/-- The cache row written after tile `tA` is fetched from the pager. -/
def tileRowA : SearchRow :=
  { key := tileKey tA, payload := Payload.ok (SearchVal.places [placeA]),
    timestamp := 0 }

/-- A search cache whose only row is the corrupt payload under tile `tB`'s
key. -/
def cacheCorruptTile : SearchCache := [corruptRowB]

/-- The search cache after geocoding and fetching tile `tA`. -/
def cacheAfterA : SearchCache := [tileRowA, geoRowB, corruptRowB]

/-- Distinct `SearchKey` constructors are never equal (nearby vs geocode). -/
lemma nearby_ne_geocode (a b c : ℚ) (k s : String) :
    (SearchKey.nearby a b c k = SearchKey.geocode s) = False :=
  eq_false (fun h => SearchKey.noConfusion h)

/-- Distinct `SearchKey` constructors are never equal (geocode vs nearby). -/
lemma geocode_ne_nearby (a b c : ℚ) (k s : String) :
    (SearchKey.geocode s = SearchKey.nearby a b c k) = False :=
  eq_false (fun h => SearchKey.noConfusion h)

/-- The tile grid of a 138-mile, `splits = 2` search centered at the
origin. -/
lemma tiles138 : tileList 0 0 138 2 "coffee" = [tA, tB, tC, tD] := by
  unfold tileList
  rw [show List.range 2 = [0, 1] from rfl]
  simp [tA, tB, tC, tD, TileParams.mk.injEq]
  norm_num

/-- Full evaluation of the corrupt-tile run with budget 10: tile `tA`
contributes `placeA`, tile `tB`'s corrupt row raises inside the loop, and the
whole-search handler returns the empty list. -/
lemma run_corrupt_budget10 :
    split_region_search geoNetOk pagerOkA cacheCorruptTile 0 "coffee" "boston"
        138 10 2 =
      { leads := [], pagerCalls := [tA], cacheAfter := cacheAfterA,
        caughtError := some "JSONDecodeError" } := by
  norm_num [split_region_search, geocode_location, geocodeInner, geocodeLoop,
    maxRetries, getCachedSearchE, saveToCache, tiles138, resultsPerRegion,
    ceilDiv, tileLoop, tileStep, fetchRegionLeads, pagerFetch, mergeLeads,
    truthyVal, placesOfE, List.find?, List.filter, geoNetOk, pagerOkA,
    cacheCorruptTile, geoKey, geoRowB, corruptRowB, tileRowA, cacheAfterA, tA,
    tB, tC, tD, placeA, decodePayload, tileKey, sevenDays, nearby_ne_geocode,
    geocode_ne_nearby, SearchKey.nearby.injEq]

/-- Full evaluation of the same run with budget 1: tile `tA` alone fills the
budget and the corrupt tile `tB` is never reached. -/
lemma run_corrupt_budget1 :
    split_region_search geoNetOk pagerOkA cacheCorruptTile 0 "coffee" "boston"
        138 1 2 =
      { leads := [placeA], pagerCalls := [tA], cacheAfter := cacheAfterA,
        caughtError := none } := by
  norm_num [split_region_search, geocode_location, geocodeInner, geocodeLoop,
    maxRetries, getCachedSearchE, saveToCache, tiles138, resultsPerRegion,
    ceilDiv, tileLoop, tileStep, fetchRegionLeads, pagerFetch, mergeLeads,
    truthyVal, placesOfE, List.find?, List.filter, geoNetOk, pagerOkA,
    cacheCorruptTile, geoKey, geoRowB, corruptRowB, tileRowA, cacheAfterA, tA,
    tB, tC, tD, placeA, decodePayload, tileKey, sevenDays, nearby_ne_geocode,
    geocode_ne_nearby, SearchKey.nearby.injEq]

/-- Claim C1, counterexample: identical runs except for the budget — with
`max_results = 1` the first tile alone yields `[placeA]`, but with
`max_results = 10` the failure at the second tile (its cached payload is
corrupt, so the unguarded `json.loads` raises inside the loop) reaches the
single whole-search handler, which discards the lead already gathered from
tile 1 and returns `[]`. -/
theorem region_tile_failure_cex :
    (split_region_search geoNetOk pagerOkA cacheCorruptTile 0 "coffee" "boston"
        138 1 2).leads = [placeA] ∧
    (split_region_search geoNetOk pagerOkA cacheCorruptTile 0 "coffee" "boston"
        138 10 2).leads = [] ∧
    (split_region_search geoNetOk pagerOkA cacheCorruptTile 0 "coffee" "boston"
        138 10 2).caughtError = some "JSONDecodeError" := by
  rw [run_corrupt_budget10, run_corrupt_budget1]
  exact ⟨rfl, rfl, rfl⟩

/-- Claim C1, amended: per-tile failures are NOT contained — any caught
exception during `split_region_search` (at whatever tile) makes the whole
call return the empty list, discarding results accumulated from prior
tiles. -/
theorem region_failure_returns_empty (geoNet : Nat → GeoResp) (pager : Pager)
    (cache : SearchCache) (now : Int) (bt loc : String) (radius : ℚ)
    (maxr splits : Nat) (e : String)
    (h : (split_region_search geoNet pager cache now bt loc radius maxr
      splits).caughtError = some e) :
    (split_region_search geoNet pager cache now bt loc radius maxr
      splits).leads = [] := by
  unfold split_region_search at h ⊢
  by_cases hs : splits = 0
  · simp [hs]
  · rw [if_neg hs] at h ⊢
    cases hg : (geocode_location geoNet now cache loc).result with
    | error e2 => simp
    | ok q =>
      obtain ⟨lat, lng⟩ := q
      cases ht : tileLoop pager now (resultsPerRegion maxr splits) maxr
          (tileList lat lng radius splits bt)
          { seen := [], acc := [],
            cache := (geocode_location geoNet now cache loc).cacheAfter,
            calls := [] } with
      | error e2 => simp [ht]
      | ok r =>
        rw [hg] at h
        simp [ht] at h

/-- Witness for `region_failure_returns_empty` at the corrupt-tile run. -/
theorem region_failure_returns_empty_witness :
    (split_region_search geoNetOk pagerOkA cacheCorruptTile 0 "coffee" "boston"
        138 10 2).leads = [] :=
  region_failure_returns_empty geoNetOk pagerOkA cacheCorruptTile 0 "coffee"
    "boston" 138 10 2 "JSONDecodeError" (by rw [run_corrupt_budget10])

/-- A geocoding oracle that reports `ZERO_RESULTS` on every attempt. -/
def geoNetZero : Nat → GeoResp := fun _ => GeoResp.zeroResults

/-- Claim C3, counterexample: when geocoding fails, `geocode_location` does
raise a `ValueError` carrying the location string — but `split_region_search`
catches it and returns the ordinary empty result to its caller (the message
goes to the UI only); no error is surfaced. -/
theorem region_geocode_failure_cex :
    (geocode_location geoNetZero 0 [] "nowhere").result =
      Except.error
        "Could not geocode location: nowhere - Location not found: nowhere" ∧
    split_region_search geoNetZero pagerOkA [] 0 "coffee" "nowhere" 20 10 2 =
      { leads := [], pagerCalls := [], cacheAfter := [],
        caughtError := some
          "Could not geocode location: nowhere - Location not found: nowhere" } := by
  exact ⟨rfl, rfl⟩

/-- Claim C3, amended: a `GeocodeResolver` failure aborts the tiled search
before any tile is processed (no pager call is made), but the error is caught
by the whole-search handler and the caller receives the empty list, not a
raised typed error. -/
theorem region_geocode_failure_swallowed (geoNet : Nat → GeoResp)
    (pager : Pager) (cache : SearchCache) (now : Int) (bt loc : String)
    (radius : ℚ) (maxr splits : Nat) (e : String) (hs : splits ≠ 0)
    (hg : (geocode_location geoNet now cache loc).result = Except.error e) :
    split_region_search geoNet pager cache now bt loc radius maxr splits =
      { leads := [], pagerCalls := [],
        cacheAfter := (geocode_location geoNet now cache loc).cacheAfter,
        caughtError := some e } := by
  unfold split_region_search
  rw [if_neg hs, hg]

/-- Witness for `region_geocode_failure_swallowed` at the `ZERO_RESULTS`
run. -/
theorem region_geocode_failure_swallowed_witness :
    split_region_search geoNetZero pagerOkA [] 0 "coffee" "nowhere" 20 10 2 =
      { leads := [], pagerCalls := [],
        cacheAfter := (geocode_location geoNetZero 0 [] "nowhere").cacheAfter,
        caughtError := some
          "Could not geocode location: nowhere - Location not found: nowhere" } :=
  region_geocode_failure_swallowed geoNetZero pagerOkA [] 0 "coffee" "nowhere"
    20 10 2 "Could not geocode location: nowhere - Location not found: nowhere"
    (by decide) rfl

/-- Claim C8: two lead records whose company name and website agree up to
leading/trailing whitespace and case produce the same `_lead_cache_key`;
processing the first (cache miss, successful enrichment) and then the second
through `process_lead` with caching invokes the enrichment pipeline at most
once for the pair — the second call is answered from the cache with the first
call's record. -/
theorem lead_dedup_single_enrichment (enrich : String → Except String Enriched)
    (c : LeadCache) (now : Int) (l1 l2 : Lead) (d : Enriched)
    (hcomp : pyLower (cleanString l1.company_name) =
      pyLower (cleanString l2.company_name))
    (hweb : pyLower (cleanString l1.website) = pyLower (cleanString l2.website))
    (hw1 : cleanString l1.website ≠ "")
    (hna1 : pyLower (cleanString l1.website) ≠ "n/a")
    (hw2 : cleanString l2.website ≠ "")
    (hna2 : pyLower (cleanString l2.website) ≠ "n/a")
    (hmiss : getCachedLead c l1 = none)
    (hok : enrich (cleanString l1.website) = Except.ok d) :
    leadCacheKey l1 = leadCacheKey l2 ∧
    (process_lead enrich c now l1 true).enrichCalls +
      (process_lead enrich (process_lead enrich c now l1 true).cacheAfter now
        l2 true).enrichCalls ≤ 1 ∧
    (process_lead enrich (process_lead enrich c now l1 true).cacheAfter now l2
        true).result = (process_lead enrich c now l1 true).result := by
  have hkey : leadCacheKey l1 = leadCacheKey l2 := by
    unfold leadCacheKey
    rw [hcomp, hweb]
  have h1 : process_lead enrich c now l1 true =
      { result := mkProcessedResult l1 (cleanString l1.website) d,
        cacheAfter :=
          saveLeadToCache c now l1 (mkProcessedResult l1 (cleanString l1.website) d),
        enrichCalls := 1 } := by
    unfold process_lead
    rw [if_neg (by simp [hw1, hna1]), if_pos rfl, hmiss, hok]
  have hhit : getCachedLead
      (saveLeadToCache c now l1 (mkProcessedResult l1 (cleanString l1.website) d))
      l2 = some (mkProcessedResult l1 (cleanString l1.website) d) := by
    unfold getCachedLead saveLeadToCache
    rw [List.find?_cons_of_pos]
    · rfl
    · simp [hkey]
  have h2 : process_lead enrich
      (saveLeadToCache c now l1 (mkProcessedResult l1 (cleanString l1.website) d))
      now l2 true =
      { result := mkProcessedResult l1 (cleanString l1.website) d,
        cacheAfter :=
          saveLeadToCache c now l1 (mkProcessedResult l1 (cleanString l1.website) d),
        enrichCalls := 0 } := by
    unfold process_lead
    rw [if_neg (by simp [hw2, hna2]), if_pos rfl, hhit]
  refine ⟨hkey, ?_, ?_⟩ <;> simp [h1, h2]

/-- The lead record "Acme / acme.com". -/
def leadAcme1 : Lead :=
  { company_name := some "Acme", full_address := none, town := none,
    phone := none, website := some "acme.com", business_type := none }

/-- The lead record "ACME (trailing space) / (leading space) Acme.com" —
the same logical lead up to whitespace and case. -/
def leadAcme2 : Lead :=
  { company_name := some "ACME ", full_address := none, town := none,
    phone := none, website := some " Acme.com", business_type := none }

/-- A trivial enrichment collaborator that always succeeds. -/
def enrichTrivial : String → Except String Enriched :=
  fun _ => Except.ok
    { owner_name := none, owner_title := none, confidence := none,
      confidence_reasoning := none, discovered_emails := "",
      potential_emails := "", key_facts := "" }

/-- Witness for `lead_dedup_single_enrichment` on the Acme pair. -/
theorem lead_dedup_single_enrichment_witness :
    leadCacheKey leadAcme1 = leadCacheKey leadAcme2 ∧
    (process_lead enrichTrivial [] 0 leadAcme1 true).enrichCalls +
      (process_lead enrichTrivial
        (process_lead enrichTrivial [] 0 leadAcme1 true).cacheAfter 0 leadAcme2
        true).enrichCalls ≤ 1 ∧
    (process_lead enrichTrivial
        (process_lead enrichTrivial [] 0 leadAcme1 true).cacheAfter 0 leadAcme2
        true).result = (process_lead enrichTrivial [] 0 leadAcme1 true).result :=
  lead_dedup_single_enrichment enrichTrivial [] 0 leadAcme1 leadAcme2
    { owner_name := none, owner_title := none, confidence := none,
      confidence_reasoning := none, discovered_emails := "",
      potential_emails := "", key_facts := "" }
    (by decide) (by decide) (by decide) (by decide) (by decide) (by decide)
    rfl rfl
